import Mathlib

/-!
Verification of the Provident Fund ledger calculation engine
(`calculate_ledger` in `pf_calculator.py`).

Monetary amounts and rates are modelled as exact rationals (`ℚ`); the
monthly interest, produced by Python's built-in `round`, is an integer
(`ℤ`).  Python's `round` rounds to the nearest integer with ties going to
the even integer (banker's rounding); `pyRound` below embeds exactly that
rule.  The twelve-month loop of `calculate_ledger` is embedded as a
recursion over the list of monthly input rows, threading the running
balance and the running interest total exactly as the source does.
-/

/-- One row of the monthly input table: month label, deposit before the
15th, deposit after the 15th, withdrawal, and annual interest rate in
percent (columns `Month`, `Dep_Before_15`, `Dep_After_15`, `Withdrawal`,
`Rate` of the input data frame). -/
structure MonthlyInput where
  month : String
  dep_before : ℚ
  dep_after : ℚ
  withdrawal : ℚ
  rate : ℚ
deriving Repr, DecidableEq, Inhabited

/-- One row of the result table produced by `calculate_ledger`: the nine
columns `Month`, `Opening Balance`, `Dep (<15th)`, `Dep (>15th)`,
`Withdrawal`, `Lowest Balance`, `Rate (%)`, `Interest`,
`Closing Balance`. -/
structure MonthlyResult where
  month : String
  opening_bal : ℚ
  dep_before : ℚ
  dep_after : ℚ
  withdrawal : ℚ
  lowest_bal : ℚ
  rate : ℚ
  interest : ℤ
  closing_bal : ℚ
deriving Repr, DecidableEq, Inhabited

/-- Python's built-in `round` on an exact value: round to the nearest
integer, with a tie (fractional part exactly one half) resolved to the
even neighbour. -/
def pyRound (q : ℚ) : ℤ :=
  let n := ⌊q⌋
  let frac := q - n
  if frac < 1/2 then n
  else if 1/2 < frac then n + 1
  else if n % 2 = 0 then n else n + 1

/-- Rounding half away from zero, the rule named by the specification for
monthly interest.  Stated from the specification's words only, to be
compared against the source's `pyRound`. -/
def roundHalfAwayFromZero (q : ℚ) : ℤ :=
  if 0 ≤ q then ⌊q + 1/2⌋ else ⌈q - 1/2⌉

/-- The body of the loop of `calculate_ledger` for a single row: computes
the lowest balance (clamped at zero), the interest
`round(lowest_bal * rate / 1200)`, the closing balance, and assembles the
result record, with the pre-update running balance as the opening
balance. -/
def calcMonth (current_bal : ℚ) (row : MonthlyInput) : MonthlyResult :=
  let lowest_bal_calc := current_bal + row.dep_before - row.withdrawal
  let lowest_bal := max 0 lowest_bal_calc
  let interest := pyRound ((lowest_bal * row.rate) / 1200)
  let closing_bal := current_bal + row.dep_before + row.dep_after - row.withdrawal
  { month := row.month
    opening_bal := current_bal
    dep_before := row.dep_before
    dep_after := row.dep_after
    withdrawal := row.withdrawal
    lowest_bal := lowest_bal
    rate := row.rate
    interest := interest
    closing_bal := closing_bal }

/-- The loop of `calculate_ledger`: iterates over the input rows carrying
the running balance `current_bal` and the accumulator `total_interest`,
and returns the result rows, the total interest, and the final running
balance. -/
def ledgerLoop : ℚ → ℤ → List MonthlyInput → List MonthlyResult × ℤ × ℚ
  | current_bal, total_interest, [] => ([], total_interest, current_bal)
  | current_bal, total_interest, row :: rest =>
    let r := calcMonth current_bal row
    let t := ledgerLoop r.closing_bal (total_interest + r.interest) rest
    (r :: t.1, t.2.1, t.2.2)

/-- Embedding of `calculate_ledger(opening_bal, input_df)`: starts the
loop with running balance `opening_bal` and interest accumulator `0`;
returns `(results, total_interest, current_bal)` exactly as the source's
final `return` statement does. -/
def calculate_ledger (opening_bal : ℚ) (input_df : List MonthlyInput) :
    List MonthlyResult × ℤ × ℚ :=
  ledgerLoop opening_bal 0 input_df

/-- The running balance after processing a list of rows: the closing
balance of each month becomes the balance for the next. -/
def runBal (b : ℚ) : List MonthlyInput → ℚ
  | [] => b
  | row :: rest => runBal (calcMonth b row).closing_bal rest

/-- Two monthly input rows that agree on everything except possibly the
interest rate. -/
def sameExceptRate (a b : MonthlyInput) : Prop :=
  a.month = b.month ∧ a.dep_before = b.dep_before ∧
    a.dep_after = b.dep_after ∧ a.withdrawal = b.withdrawal

/-- A monthly input row with no deposits and no withdrawal, only a rate. -/
def zRow (m : String) (r : ℚ) : MonthlyInput :=
  ⟨m, 0, 0, 0, r⟩

/-- Twelve-month input whose first month withdraws 500 and whose other
months are empty; used with opening balance 100 it realises the
withdrawal-exceeds-balance scenario of the specification. -/
def exRows : List MonthlyInput :=
  [⟨"APR", 0, 0, 500, 0⟩, zRow "MAY" 0, zRow "JUN" 0, zRow "JUL" 0,
   zRow "AUG" 0, zRow "SEP" 0, zRow "OCT" 0, zRow "NOV" 0, zRow "DEC" 0,
   zRow "JAN" 0, zRow "FEB" 0, zRow "MAR" 0]

/-- The same transactions as `exRows` but with every rate set to 5;
agrees with `exRows` on every non-rate field. -/
def exRowsAlt : List MonthlyInput :=
  [⟨"APR", 0, 0, 500, 5⟩, zRow "MAY" 5, zRow "JUN" 5, zRow "JUL" 5,
   zRow "AUG" 5, zRow "SEP" 5, zRow "OCT" 5, zRow "NOV" 5, zRow "DEC" 5,
   zRow "JAN" 5, zRow "FEB" 5, zRow "MAR" 5]

/-- Twelve empty months except that APR carries rate 1; with opening
balance 600 the APR interest figure is 600 * 1 / 1200 = 1/2, a rounding
tie. -/
def cexRows : List MonthlyInput :=
  [zRow "APR" 1, zRow "MAY" 0, zRow "JUN" 0, zRow "JUL" 0,
   zRow "AUG" 0, zRow "SEP" 0, zRow "OCT" 0, zRow "NOV" 0, zRow "DEC" 0,
   zRow "JAN" 0, zRow "FEB" 0, zRow "MAR" 0]

/-- Twelve empty months with APR at rate 6 and MAY at rate 12; with
opening balance 100 both months have lowest balance 100, so they probe
the rate-change scenario. -/
def c7Rows : List MonthlyInput :=
  [zRow "APR" 6, zRow "MAY" 12, zRow "JUN" 0, zRow "JUL" 0,
   zRow "AUG" 0, zRow "SEP" 0, zRow "OCT" 0, zRow "NOV" 0, zRow "DEC" 0,
   zRow "JAN" 0, zRow "FEB" 0, zRow "MAR" 0]

/-- The single-month deposit scenario of the specification: APR deposits
12000 before the cutoff at rate 7.1, and the remaining eleven months are
empty except for their (arbitrary) rates. -/
def scenarioRows (r1 r2 r3 r4 r5 r6 r7 r8 r9 r10 r11 : ℚ) : List MonthlyInput :=
  [⟨"APR", 12000, 0, 0, 71/10⟩, zRow "MAY" r1, zRow "JUN" r2, zRow "JUL" r3,
   zRow "AUG" r4, zRow "SEP" r5, zRow "OCT" r6, zRow "NOV" r7, zRow "DEC" r8,
   zRow "JAN" r9, zRow "FEB" r10, zRow "MAR" r11]

@[simp] lemma calcMonth_month (b : ℚ) (row : MonthlyInput) :
    (calcMonth b row).month = row.month := rfl

@[simp] lemma calcMonth_opening_bal (b : ℚ) (row : MonthlyInput) :
    (calcMonth b row).opening_bal = b := rfl

@[simp] lemma calcMonth_lowest_bal (b : ℚ) (row : MonthlyInput) :
    (calcMonth b row).lowest_bal = max 0 (b + row.dep_before - row.withdrawal) := rfl

@[simp] lemma calcMonth_rate (b : ℚ) (row : MonthlyInput) :
    (calcMonth b row).rate = row.rate := rfl

@[simp] lemma calcMonth_interest (b : ℚ) (row : MonthlyInput) :
    (calcMonth b row).interest
      = pyRound ((max 0 (b + row.dep_before - row.withdrawal) * row.rate) / 1200) := rfl

@[simp] lemma calcMonth_closing_bal (b : ℚ) (row : MonthlyInput) :
    (calcMonth b row).closing_bal
      = b + row.dep_before + row.dep_after - row.withdrawal := rfl

@[simp] lemma runBal_nil (b : ℚ) : runBal b [] = b := rfl

@[simp] lemma runBal_cons (b : ℚ) (row : MonthlyInput) (rest : List MonthlyInput) :
    runBal b (row :: rest) = runBal (calcMonth b row).closing_bal rest := rfl

lemma ledgerLoop_results_length :
    ∀ (rows : List MonthlyInput) (b : ℚ) (t : ℤ),
      (ledgerLoop b t rows).1.length = rows.length
  | [], _, _ => rfl
  | row :: rest, b, t => by
    simp [ledgerLoop, ledgerLoop_results_length rest]

lemma ledgerLoop_final :
    ∀ (rows : List MonthlyInput) (b : ℚ) (t : ℤ),
      (ledgerLoop b t rows).2.2 = runBal b rows
  | [], _, _ => rfl
  | row :: rest, b, t => by
    simp [ledgerLoop, ledgerLoop_final rest]

lemma ledgerLoop_total :
    ∀ (rows : List MonthlyInput) (b : ℚ) (t : ℤ),
      (ledgerLoop b t rows).2.1
        = t + ((ledgerLoop b t rows).1.map MonthlyResult.interest).sum
  | [], _, _ => by simp [ledgerLoop]
  | row :: rest, b, t => by
    simp only [ledgerLoop, List.map_cons, List.sum_cons]
    rw [ledgerLoop_total rest]
    ring

lemma ledgerLoop_getElem :
    ∀ (rows : List MonthlyInput) (b : ℚ) (t : ℤ) (i : ℕ) (si : MonthlyInput),
      rows[i]? = some si →
      (ledgerLoop b t rows).1[i]? = some (calcMonth (runBal b (rows.take i)) si)
  | [], _, _, i, si => by simp
  | row :: rest, b, t, 0, si => by
    intro h
    simp at h
    subst h
    simp [ledgerLoop]
  | row :: rest, b, t, i + 1, si => by
    intro h
    simp only [List.getElem?_cons_succ] at h
    have ih := ledgerLoop_getElem rest (calcMonth b row).closing_bal
      (t + (calcMonth b row).interest) i si h
    simp only [ledgerLoop, List.getElem?_cons_succ, List.take_succ_cons, runBal_cons]
    exact ih

lemma runBal_take_succ :
    ∀ (rows : List MonthlyInput) (b : ℚ) (i : ℕ) (si : MonthlyInput),
      rows[i]? = some si →
      runBal b (rows.take (i + 1)) = (calcMonth (runBal b (rows.take i)) si).closing_bal
  | [], _, i, si => by simp
  | row :: rest, b, 0, si => by
    intro h
    simp at h
    subst h
    simp
  | row :: rest, b, i + 1, si => by
    intro h
    simp only [List.getElem?_cons_succ] at h
    simp only [List.take_succ_cons, runBal_cons]
    exact runBal_take_succ rest (calcMonth b row).closing_bal i si h

lemma getElem?_of_results {opening : ℚ} {rows : List MonthlyInput} {i : ℕ}
    {ri : MonthlyResult} (hr : (calculate_ledger opening rows).1[i]? = some ri) :
    ∃ si, rows[i]? = some si ∧ ri = calcMonth (runBal opening (rows.take i)) si := by
  rcases List.getElem?_eq_some.1 hr with ⟨hlen, _⟩
  rw [calculate_ledger, ledgerLoop_results_length] at hlen
  refine ⟨rows.get ⟨i, hlen⟩, List.getElem?_eq_getElem hlen, ?_⟩
  have := ledgerLoop_getElem rows opening 0 i (rows.get ⟨i, hlen⟩)
    (List.getElem?_eq_getElem hlen)
  rw [calculate_ledger] at hr
  rw [this] at hr
  exact (Option.some_injective _ hr).symm

lemma pyRound_cases (q : ℚ) : pyRound q = ⌊q⌋ ∨ pyRound q = ⌊q⌋ + 1 := by
  simp only [pyRound]
  split
  · exact Or.inl rfl
  split
  · exact Or.inr rfl
  split
  · exact Or.inl rfl
  · exact Or.inr rfl

lemma pyRound_le (q : ℚ) : (pyRound q : ℚ) ≤ q + 1/2 := by
  have hfl : (⌊q⌋ : ℚ) ≤ q := Int.floor_le q
  simp only [pyRound]
  split
  · linarith
  rename_i h1
  push_neg at h1
  split
  · rename_i h2
    push_cast
    linarith
  rename_i h2
  push_neg at h2
  have heq : q - (⌊q⌋ : ℚ) = 1/2 := le_antisymm h2 h1
  split
  · linarith
  · push_cast
    linarith

lemma le_pyRound (q : ℚ) : q - 1/2 ≤ (pyRound q : ℚ) := by
  have hfl : (⌊q⌋ : ℚ) ≤ q := Int.floor_le q
  have hlt : q < (⌊q⌋ : ℚ) + 1 := Int.lt_floor_add_one q
  simp only [pyRound]
  split
  · rename_i h1
    linarith
  rename_i h1
  push_neg at h1
  split
  · push_cast
    linarith
  split
  · linarith
  · push_cast
    linarith

lemma pyRound_mono {x y : ℚ} (h : x ≤ y) : pyRound x ≤ pyRound y := by
  by_contra hc
  push_neg at hc
  have h1 : pyRound y + 1 ≤ pyRound x := hc
  have h2 : (pyRound x : ℚ) ≤ x + 1/2 := pyRound_le x
  have h3 : y - 1/2 ≤ (pyRound y : ℚ) := le_pyRound y
  have h4 : ((pyRound y : ℤ) : ℚ) + 1 ≤ ((pyRound x : ℤ) : ℚ) := by
    exact_mod_cast h1
  have hxy : x = y := by linarith
  subst hxy
  omega

lemma pyRound_tie_even {q : ℚ} (h : q - (⌊q⌋ : ℚ) = 1/2) : pyRound q % 2 = 0 := by
  simp only [pyRound]
  split
  · rename_i h1
    rw [h] at h1
    norm_num at h1
  split
  · rename_i h1 h2
    rw [h] at h2
    norm_num at h2
  split
  · rename_i h1 h2 h3
    exact h3
  · rename_i h1 h2 h3
    omega

/-- C1: for an opening balance and exactly 12 monthly rows,
`calculate_ledger` returns exactly 12 result rows in the same month
order, the first result's opening balance is the opening-balance
argument, and each later result's opening balance is the previous
result's closing balance. -/
theorem c1_ledger_length_and_chaining (opening : ℚ) (rows : List MonthlyInput)
    (h12 : rows.length = 12) :
    (calculate_ledger opening rows).1.length = 12 ∧
    (∀ (r0 : MonthlyResult), (calculate_ledger opening rows).1[0]? = some r0 →
      r0.opening_bal = opening) ∧
    (∀ (i : ℕ) (ri rj : MonthlyResult),
      (calculate_ledger opening rows).1[i]? = some ri →
      (calculate_ledger opening rows).1[i + 1]? = some rj →
      rj.opening_bal = ri.closing_bal) ∧
    (∀ (i : ℕ) (ri : MonthlyResult) (si : MonthlyInput),
      (calculate_ledger opening rows).1[i]? = some ri →
      rows[i]? = some si → ri.month = si.month) := by
  refine ⟨?_, ?_, ?_, ?_⟩
  · rw [calculate_ledger, ledgerLoop_results_length, h12]
  · intro r0 h
    rcases getElem?_of_results h with ⟨s0, hs, heq⟩
    subst heq
    simp
  · intro i ri rj hi hj
    rcases getElem?_of_results hi with ⟨si, hsi, heqi⟩
    rcases getElem?_of_results hj with ⟨sj, hsj, heqj⟩
    subst heqi
    subst heqj
    simp only [calcMonth_opening_bal]
    exact runBal_take_succ rows opening i si hsi
  · intro i ri si hi hs
    rcases getElem?_of_results hi with ⟨si2, hs2, heq⟩
    rw [hs] at hs2
    cases Option.some_inj.1 hs2
    subst heq
    simp

/-- Witness for C1 at opening balance 100 and the concrete rows
`exRows`. -/
theorem c1_witness : (calculate_ledger 100 exRows).1.length = 12 :=
  (c1_ledger_length_and_chaining 100 exRows rfl).1

/-- C2: every result's lowest balance is the opening balance plus the
before-cutoff deposit minus the withdrawal, clamped below at zero, and
is therefore never negative. -/
theorem c2_lowest_balance_clamped (opening : ℚ) (rows : List MonthlyInput)
    (i : ℕ) (ri : MonthlyResult) (si : MonthlyInput)
    (hr : (calculate_ledger opening rows).1[i]? = some ri)
    (hs : rows[i]? = some si) :
    ri.lowest_bal = max 0 (ri.opening_bal + si.dep_before - si.withdrawal) ∧
    0 ≤ ri.lowest_bal := by
  rcases getElem?_of_results hr with ⟨si2, hs2, heq⟩
  rw [hs] at hs2
  cases Option.some_inj.1 hs2
  subst heq
  exact ⟨by simp, le_max_left 0 _⟩

/-- Witness for C2 on the first month of the withdrawal-exceeds-balance
input: opening 100, withdrawal 500. -/
theorem c2_witness :
    ((calculate_ledger 100 exRows).1.headI).lowest_bal
      = max 0 (((calculate_ledger 100 exRows).1.headI).opening_bal
          + (exRows.headI).dep_before - (exRows.headI).withdrawal) ∧
    0 ≤ ((calculate_ledger 100 exRows).1.headI).lowest_bal :=
  c2_lowest_balance_clamped 100 exRows 0 _ _ rfl rfl

/-- C4: every result's closing balance is its opening balance plus both
deposits minus the withdrawal (interest excluded), and it propagates,
possibly negative, as the next month's opening balance. -/
theorem c4_closing_balance_formula (opening : ℚ) (rows : List MonthlyInput)
    (i : ℕ) (ri : MonthlyResult) (si : MonthlyInput)
    (hr : (calculate_ledger opening rows).1[i]? = some ri)
    (hs : rows[i]? = some si) :
    ri.closing_bal
      = ri.opening_bal + si.dep_before + si.dep_after - si.withdrawal ∧
    (∀ (rj : MonthlyResult), (calculate_ledger opening rows).1[i + 1]? = some rj →
      rj.opening_bal = ri.closing_bal) := by
  rcases getElem?_of_results hr with ⟨si2, hs2, heq⟩
  rw [hs] at hs2
  cases Option.some_inj.1 hs2
  subst heq
  refine ⟨by simp, ?_⟩
  intro rj hj
  rcases getElem?_of_results hj with ⟨sj, hsj, heqj⟩
  subst heqj
  simp only [calcMonth_opening_bal]
  exact runBal_take_succ rows opening i si hs

/-- Witness for C4: the withdrawal-exceeds-balance example — opening
balance 100, APR withdraws 500: the formula holds, the lowest balance is
clamped to 0, the interest is 0, the closing balance is -400, and -400
propagates as MAY's opening balance. -/
theorem c4_witness :
    (((calculate_ledger 100 exRows).1.headI).closing_bal
      = ((calculate_ledger 100 exRows).1.headI).opening_bal
        + (exRows.headI).dep_before + (exRows.headI).dep_after
        - (exRows.headI).withdrawal) ∧
    ((calculate_ledger 100 exRows).1.headI).lowest_bal = 0 ∧
    ((calculate_ledger 100 exRows).1.headI).interest = 0 ∧
    ((calculate_ledger 100 exRows).1.headI).closing_bal = -400 ∧
    ((calculate_ledger 100 exRows).1.tail.headI).opening_bal = -400 := by
  refine ⟨(c4_closing_balance_formula 100 exRows 0 _ _ rfl rfl).1, ?_, ?_, ?_, ?_⟩
  · norm_num [calculate_ledger, ledgerLoop, exRows, zRow, max_def]
  · norm_num [calculate_ledger, ledgerLoop, exRows, zRow, max_def, pyRound]
  · norm_num [calculate_ledger, ledgerLoop, exRows, zRow]
  · norm_num [calculate_ledger, ledgerLoop, exRows, zRow]

/-- C5: for a 12-row input, the returned final principal is the 12th
result's closing balance, and the returned total interest is the sum of
the 12 monthly interest values. -/
theorem c5_totals (opening : ℚ) (rows : List MonthlyInput)
    (h12 : rows.length = 12) (rlast : MonthlyResult)
    (hlast : (calculate_ledger opening rows).1[11]? = some rlast) :
    (calculate_ledger opening rows).2.2 = rlast.closing_bal ∧
    (calculate_ledger opening rows).2.1
      = ((calculate_ledger opening rows).1.map MonthlyResult.interest).sum := by
  constructor
  · rcases getElem?_of_results hlast with ⟨s, hs, heq⟩
    subst heq
    rw [calculate_ledger, ledgerLoop_final]
    rw [← runBal_take_succ rows opening 11 s hs]
    rw [show rows.take 12 = rows from by rw [← h12]; exact List.take_length rows]
  · rw [calculate_ledger, ledgerLoop_total]
    simp [calculate_ledger]

/-- Witness for C5 at opening balance 100 and the concrete rows
`exRows`: the final principal equals the last closing balance. -/
theorem c5_witness :
    (calculate_ledger 100 exRows).2.2
      = ((calculate_ledger 100 exRows).1.getLastI).closing_bal ∧
    (calculate_ledger 100 exRows).2.1
      = ((calculate_ledger 100 exRows).1.map MonthlyResult.interest).sum :=
  c5_totals 100 exRows rfl _ rfl

/-- C8: `calculate_ledger` is deterministic — two invocations with equal
opening balances and equal input rows return equal result lists, equal
total interest, and equal final principal. -/
theorem c8_deterministic (o1 o2 : ℚ) (rows1 rows2 : List MonthlyInput)
    (h1 : o1 = o2) (h2 : rows1 = rows2) :
    (calculate_ledger o1 rows1).1 = (calculate_ledger o2 rows2).1 ∧
    (calculate_ledger o1 rows1).2.1 = (calculate_ledger o2 rows2).2.1 ∧
    (calculate_ledger o1 rows1).2.2 = (calculate_ledger o2 rows2).2.2 := by
  subst h1
  subst h2
  exact ⟨rfl, rfl, rfl⟩

/-- Witness for C8 at opening balance 100 and the concrete rows
`exRows`. -/
theorem c8_witness :
    (calculate_ledger 100 exRows).1 = (calculate_ledger 100 exRows).1 ∧
    (calculate_ledger 100 exRows).2.1 = (calculate_ledger 100 exRows).2.1 ∧
    (calculate_ledger 100 exRows).2.2 = (calculate_ledger 100 exRows).2.2 :=
  c8_deterministic 100 100 exRows exRows rfl rfl

lemma ledgerLoop_foldl :
    ∀ (rows : List MonthlyInput) (b : ℚ) (t : ℤ),
      (ledgerLoop b t rows).2.1
        = List.foldl (fun acc ri => acc + ri.interest) t (ledgerLoop b t rows).1
  | [], _, _ => rfl
  | row :: rest, b, t => by
    simp only [ledgerLoop, List.foldl_cons]
    exact ledgerLoop_foldl rest _ _

/-- C3 counterexample: with opening balance 600 and an APR rate of 1 the
interest figure is 600 * 1 / 1200 = 1/2, a tie; the code rounds it to 0
(ties to even), while rounding half away from zero would give 1. -/
theorem c3_counterexample :
    ((calculate_ledger 600 cexRows).1.headI).interest = 0 ∧
    roundHalfAwayFromZero
      (((calculate_ledger 600 cexRows).1.headI).lowest_bal
        * ((calculate_ledger 600 cexRows).1.headI).rate / 1200) = 1 := by
  constructor
  · norm_num [calculate_ledger, ledgerLoop, cexRows, zRow, max_def, pyRound]
  · norm_num [calculate_ledger, ledgerLoop, cexRows, zRow, max_def,
      roundHalfAwayFromZero]

lemma result_interest_formula {opening : ℚ} {rows : List MonthlyInput}
    {i : ℕ} {ri : MonthlyResult} {si : MonthlyInput}
    (hr : (calculate_ledger opening rows).1[i]? = some ri)
    (hs : rows[i]? = some si) :
    ri.interest = pyRound (ri.lowest_bal * si.rate / 1200) := by
  rcases getElem?_of_results hr with ⟨si2, hs2, heq⟩
  rw [hs] at hs2
  cases Option.some_inj.1 hs2
  subst heq
  simp only [calcMonth_interest, calcMonth_lowest_bal]

lemma result_lowest_nonneg {opening : ℚ} {rows : List MonthlyInput}
    {i : ℕ} {ri : MonthlyResult}
    (hr : (calculate_ledger opening rows).1[i]? = some ri) :
    0 ≤ ri.lowest_bal := by
  rcases getElem?_of_results hr with ⟨si2, hs2, heq⟩
  subst heq
  exact le_max_left 0 _

/-- C3 amended: every result's interest is `lowestBalance * rate / 1200`
rounded to the nearest whole unit with ties rounded to the even integer
(Python's built-in rounding), not half away from zero; in particular, on
a tie the interest is even. -/
theorem c3_amended_interest_formula (opening : ℚ) (rows : List MonthlyInput)
    (i : ℕ) (ri : MonthlyResult) (si : MonthlyInput)
    (hr : (calculate_ledger opening rows).1[i]? = some ri)
    (hs : rows[i]? = some si) :
    ri.interest = pyRound (ri.lowest_bal * si.rate / 1200) ∧
    (ri.lowest_bal * si.rate / 1200
        - (⌊ri.lowest_bal * si.rate / 1200⌋ : ℚ) = 1/2 →
      ri.interest % 2 = 0) := by
  have hform := result_interest_formula hr hs
  exact ⟨hform, fun h => hform ▸ pyRound_tie_even h⟩

/-- Witness for the amended C3 on the tie input: opening balance 600,
APR rate 1. -/
theorem c3_witness :
    ((calculate_ledger 600 cexRows).1.headI).interest
      = pyRound (((calculate_ledger 600 cexRows).1.headI).lowest_bal
          * (cexRows.headI).rate / 1200) :=
  (c3_amended_interest_formula 600 cexRows 0 _ _ rfl rfl).1

/-- C7 counterexample: with opening balance 100, APR (rate 6) and MAY
(rate 12) both have lowest balance 100, but their interests are 0 and 1,
which are not in proportion to the rates (0 * 12 = 0 while 1 * 6 = 6):
rounding destroys exact proportionality. -/
theorem c7_counterexample :
    ((calculate_ledger 100 c7Rows).1.headI).lowest_bal
      = ((calculate_ledger 100 c7Rows).1.tail.headI).lowest_bal ∧
    ((calculate_ledger 100 c7Rows).1.headI).rate = 6 ∧
    ((calculate_ledger 100 c7Rows).1.tail.headI).rate = 12 ∧
    ((calculate_ledger 100 c7Rows).1.headI).interest = 0 ∧
    ((calculate_ledger 100 c7Rows).1.tail.headI).interest = 1 ∧
    ¬ ((((calculate_ledger 100 c7Rows).1.headI).interest : ℚ) * 12
        = (((calculate_ledger 100 c7Rows).1.tail.headI).interest : ℚ) * 6) := by
  refine ⟨?_, ?_, ?_, ?_, ?_, ?_⟩ <;>
    norm_num [calculate_ledger, ledgerLoop, c7Rows, zRow, max_def, pyRound]

/-- C7 amended: for two months with identical (hence non-negative)
lowest balances and non-negative ordered rates, the month with the
larger rate earns at least as much interest, and each interest differs
from the exact proportional figure `lowestBalance * rate / 1200` by at
most one half; exact proportionality of the rounded interests does not
hold. -/
theorem c7_amended_interest_monotone (opening : ℚ) (rows : List MonthlyInput)
    (i j : ℕ) (ri rj : MonthlyResult) (si sj : MonthlyInput)
    (hri : (calculate_ledger opening rows).1[i]? = some ri)
    (hrj : (calculate_ledger opening rows).1[j]? = some rj)
    (hsi : rows[i]? = some si) (hsj : rows[j]? = some sj)
    (hlow : ri.lowest_bal = rj.lowest_bal)
    (_hnn0 : 0 ≤ si.rate) (hle : si.rate ≤ sj.rate) :
    ri.interest ≤ rj.interest ∧
    |(ri.interest : ℚ) - ri.lowest_bal * si.rate / 1200| ≤ 1/2 := by
  have hiform := result_interest_formula hri hsi
  have hjform := result_interest_formula hrj hsj
  have hnn : 0 ≤ ri.lowest_bal := result_lowest_nonneg hri
  constructor
  · rw [hiform, hjform, ← hlow]
    apply pyRound_mono
    have harg : ri.lowest_bal * si.rate ≤ ri.lowest_bal * sj.rate :=
      mul_le_mul_of_nonneg_left hle hnn
    linarith
  · rw [hiform]
    rw [abs_le]
    constructor
    · have := le_pyRound (ri.lowest_bal * si.rate / 1200)
      linarith
    · have := pyRound_le (ri.lowest_bal * si.rate / 1200)
      linarith

/-- Witness for the amended C7 on the rate-change input: opening balance
100, APR at rate 6 and MAY at rate 12, both with lowest balance 100. -/
theorem c7_witness :
    ((calculate_ledger 100 c7Rows).1.headI).interest
      ≤ ((calculate_ledger 100 c7Rows).1.tail.headI).interest ∧
    |((((calculate_ledger 100 c7Rows).1.headI).interest : ℤ) : ℚ)
        - ((calculate_ledger 100 c7Rows).1.headI).lowest_bal
          * (c7Rows.headI).rate / 1200| ≤ 1/2 :=
  c7_amended_interest_monotone 100 c7Rows 0 1 _ _ _ _ rfl rfl rfl rfl
    (by norm_num [calculate_ledger, ledgerLoop, c7Rows, zRow])
    (by norm_num [c7Rows, zRow])
    (by norm_num [c7Rows, zRow])

/-- C9: every monthly interest value and the total interest are whole
integers — each has zero fractional part when viewed as a currency
amount — and the total is the sum of the monthly integers accumulated
from 0, even though balances, deposits, and rates may be fractional. -/
theorem c9_interest_integral (opening : ℚ) (rows : List MonthlyInput) :
    (∀ ri ∈ (calculate_ledger opening rows).1, ((ri.interest : ℚ)).den = 1) ∧
    (((calculate_ledger opening rows).2.1 : ℚ)).den = 1 ∧
    (calculate_ledger opening rows).2.1
      = List.foldl (fun acc ri => acc + ri.interest) 0
          (calculate_ledger opening rows).1 := by
  refine ⟨fun ri _ => Rat.den_intCast ri.interest,
    Rat.den_intCast _, ?_⟩
  exact ledgerLoop_foldl rows opening 0

/-- Witness for C9 at opening balance 100 and the concrete rows
`exRows`. -/
theorem c9_witness :
    (((calculate_ledger 100 exRows).2.1 : ℚ)).den = 1 ∧
    (calculate_ledger 100 exRows).2.1
      = List.foldl (fun acc ri => acc + ri.interest) 0
          (calculate_ledger 100 exRows).1 :=
  ⟨(c9_interest_integral 100 exRows).2.1, (c9_interest_integral 100 exRows).2.2⟩

lemma ledgerLoop_sameExceptRate :
    ∀ {rows1 rows2 : List MonthlyInput},
      List.Forall₂ sameExceptRate rows1 rows2 →
      ∀ (bal : ℚ) (t1 t2 : ℤ),
        List.Forall₂ (fun r s => r.opening_bal = s.opening_bal ∧
            r.lowest_bal = s.lowest_bal ∧ r.closing_bal = s.closing_bal)
          (ledgerLoop bal t1 rows1).1 (ledgerLoop bal t2 rows2).1 ∧
        (ledgerLoop bal t1 rows1).2.2 = (ledgerLoop bal t2 rows2).2.2 := by
  intro rows1 rows2 h
  induction h with
  | nil =>
    intro bal t1 t2
    exact ⟨List.Forall₂.nil, rfl⟩
  | cons h1 h2 ih =>
    rename_i a b l1 l2
    intro bal t1 t2
    obtain ⟨hm, hdb, hda, hw⟩ := h1
    have hclose : (calcMonth bal a).closing_bal = (calcMonth bal b).closing_bal := by
      simp [hdb, hda, hw]
    simp only [ledgerLoop]
    constructor
    · refine List.Forall₂.cons ⟨rfl, ?_, ?_⟩ ?_
      · simp [hdb, hw]
      · simp [hdb, hda, hw]
      · rw [← hclose]
        exact (ih (calcMonth bal a).closing_bal
          (t1 + (calcMonth bal a).interest) (t2 + (calcMonth bal b).interest)).1
    · rw [← hclose]
      exact (ih (calcMonth bal a).closing_bal
        (t1 + (calcMonth bal a).interest) (t2 + (calcMonth bal b).interest)).2

/-- C10: the rates never influence any balance: for two inputs equal on
the opening balance and on every deposit and withdrawal field, possibly
differing on every rate, the two runs produce result lists agreeing
pointwise on opening, lowest, and closing balance, and equal final
principal. -/
theorem c10_rates_only_affect_interest (opening : ℚ)
    (rows1 rows2 : List MonthlyInput)
    (h : List.Forall₂ sameExceptRate rows1 rows2) :
    List.Forall₂ (fun r s => r.opening_bal = s.opening_bal ∧
        r.lowest_bal = s.lowest_bal ∧ r.closing_bal = s.closing_bal)
      (calculate_ledger opening rows1).1 (calculate_ledger opening rows2).1 ∧
    (calculate_ledger opening rows1).2.2 = (calculate_ledger opening rows2).2.2 :=
  ledgerLoop_sameExceptRate h opening 0 0

/-- Witness for C10 on `exRows` versus `exRowsAlt`, which differ only in
their twelve rate values. -/
theorem c10_witness :
    List.Forall₂ (fun r s => r.opening_bal = s.opening_bal ∧
        r.lowest_bal = s.lowest_bal ∧ r.closing_bal = s.closing_bal)
      (calculate_ledger 100 exRows).1 (calculate_ledger 100 exRowsAlt).1 ∧
    (calculate_ledger 100 exRows).2.2 = (calculate_ledger 100 exRowsAlt).2.2 :=
  c10_rates_only_affect_interest 100 exRows exRowsAlt
    (by norm_num [exRows, exRowsAlt, zRow, sameExceptRate])

/-- C6: with opening balance 0, an APR deposit of 12000 before the
cutoff at rate 7.1, and eleven further months empty except for their
rates, APR has lowest balance 12000, interest 71, and closing balance
12000; every later month carries opening, lowest, and closing balance
12000 with its interest computed from lowest balance 12000 and its own
rate; and the total interest is the sum of the twelve monthly
interests. -/
theorem c6_single_deposit_scenario (r1 r2 r3 r4 r5 r6 r7 r8 r9 r10 r11 : ℚ) :
    (((calculate_ledger 0
        (scenarioRows r1 r2 r3 r4 r5 r6 r7 r8 r9 r10 r11)).1.headI).lowest_bal
      = 12000) ∧
    (((calculate_ledger 0
        (scenarioRows r1 r2 r3 r4 r5 r6 r7 r8 r9 r10 r11)).1.headI).interest
      = 71) ∧
    (((calculate_ledger 0
        (scenarioRows r1 r2 r3 r4 r5 r6 r7 r8 r9 r10 r11)).1.headI).closing_bal
      = 12000) ∧
    (∀ (i : ℕ) (ri : MonthlyResult), 1 ≤ i →
      (calculate_ledger 0
        (scenarioRows r1 r2 r3 r4 r5 r6 r7 r8 r9 r10 r11)).1[i]? = some ri →
      ri.opening_bal = 12000 ∧ ri.lowest_bal = 12000 ∧
        ri.closing_bal = 12000 ∧
        ri.interest = pyRound (12000 * ri.rate / 1200)) ∧
    ((calculate_ledger 0
        (scenarioRows r1 r2 r3 r4 r5 r6 r7 r8 r9 r10 r11)).2.1
      = (((calculate_ledger 0
          (scenarioRows r1 r2 r3 r4 r5 r6 r7 r8 r9 r10 r11)).1.map
            MonthlyResult.interest)).sum) := by
  refine ⟨?_, ?_, ?_, ?_, ?_⟩
  · norm_num [calculate_ledger, ledgerLoop, scenarioRows, zRow, max_def]
  · norm_num [calculate_ledger, ledgerLoop, scenarioRows, zRow, max_def, pyRound]
  · norm_num [calculate_ledger, ledgerLoop, scenarioRows, zRow]
  · intro i ri h1 hri
    rcases getElem?_of_results hri with ⟨si, hsi, heq⟩
    have hlen : i < 12 := by
      rcases List.getElem?_eq_some.1 hsi with ⟨hl, _⟩
      simpa [scenarioRows, zRow] using hl
    subst heq
    interval_cases i <;>
      simp only [scenarioRows, zRow, List.getElem?_cons_zero,
        List.getElem?_cons_succ] at hsi <;>
      obtain rfl := Option.some_inj.1 hsi <;>
      norm_num [scenarioRows, zRow, List.take_succ_cons, List.take_zero, max_def]
  · rw [calculate_ledger, ledgerLoop_total]
    exact zero_add _

/-- Witness for C6 with every month's rate set to 7.1. -/
theorem c6_witness :
    (((calculate_ledger 0
        (scenarioRows (71/10) (71/10) (71/10) (71/10) (71/10) (71/10)
          (71/10) (71/10) (71/10) (71/10) (71/10))).1.headI).lowest_bal
      = 12000) ∧
    (((calculate_ledger 0
        (scenarioRows (71/10) (71/10) (71/10) (71/10) (71/10) (71/10)
          (71/10) (71/10) (71/10) (71/10) (71/10))).1.headI).interest
      = 71) :=
  ⟨(c6_single_deposit_scenario (71/10) (71/10) (71/10) (71/10) (71/10)
      (71/10) (71/10) (71/10) (71/10) (71/10) (71/10)).1,
    (c6_single_deposit_scenario (71/10) (71/10) (71/10) (71/10) (71/10)
      (71/10) (71/10) (71/10) (71/10) (71/10) (71/10)).2.1⟩
